import Mathlib

/-!
A verification development for the FusionAiAutoCoder repository.

The definitions below are a shallow embedding of the Python sources:

* `src/config/config_multi_agents.py` — `AgentOrchestrator` (workflow
  dispatch, participant assembly, confidence scoring, code extraction);
* `src/utils.py` — `parse_code_blocks`;
* `src/integration/azure_foundry.py` — `RequestCache` (LRU + TTL cache
  with optional disk persistence);
* `src/main.py` — `hybrid_workflow`.

Modelling conventions: Python floats are modelled as rationals (the
properties proved are insensitive to binary rounding); `time.time()` is a
natural-number parameter threaded explicitly; Python exceptions are
modelled as `Option`/`Except` results; Python dicts that serve as keyed
stores are modelled as association lists in insertion order (a Python
dict preserves insertion order and holds each key at most once).
-/

/-- The agents registered by `AgentOrchestrator.initialize_agents`
(`config_multi_agents.py` lines 52-165): DataCollector, Processor,
StorageHandler, CodeReviewer, Architect and the UserProxy facilitator. -/
inductive Agent where
  | userProxy
  | processor
  | architect
  | dataCollector
  | codeReviewer
  | storageHandler
deriving DecidableEq, Repr

/-- Participant assembly of `_code_generation_workflow`
(`config_multi_agents.py` lines 222-229): start from
`[user_proxy, processor]`; extend with `[architect, data_collector]` when
`complexity in ['medium', 'high']`; append `code_reviewer` when
`complexity == 'high'`.  `complexity` is the raw string taken from
`task_data` (default "medium" is applied by the caller). -/
def codeGenerationParticipants (complexity : String) : List Agent :=
  let participants := [Agent.userProxy, Agent.processor]
  let participants :=
    if complexity = "medium" ∨ complexity = "high" then
      participants ++ [Agent.architect, Agent.dataCollector]
    else participants
  if complexity = "high" then participants ++ [Agent.codeReviewer] else participants

/-- Participant list of `_code_optimization_workflow`
(`config_multi_agents.py` line 321): always
`[user_proxy, processor, code_reviewer]`; the `complexity` field read at
line 314 is never consulted when assembling participants. -/
def codeOptimizationParticipants : List Agent :=
  [Agent.userProxy, Agent.processor, Agent.codeReviewer]

/-- Participant list of `_architecture_design_workflow`
(`config_multi_agents.py` line 527): always
`[user_proxy, architect, data_collector]`. -/
def architectureDesignParticipants : List Agent :=
  [Agent.userProxy, Agent.architect, Agent.dataCollector]

/-- Participant list of `_deployment_workflow`
(`config_multi_agents.py` line 425): always
`[user_proxy, storage_handler, code_reviewer, processor]`. -/
def deploymentParticipants : List Agent :=
  [Agent.userProxy, Agent.storageHandler, Agent.codeReviewer, Agent.processor]

/-- The workflow branches of `create_workflow` that have a defined
implementation method on `AgentOrchestrator`. -/
inductive WorkflowKind where
  | codeGeneration
  | codeOptimization
  | deployment
  | architectureDesign
deriving DecidableEq, Repr

/-- Outcome of the `create_workflow` dispatch
(`config_multi_agents.py` lines 167-189).  `workflow w` means the method
implementing `w` is invoked.  `missingMethod m` models the `AttributeError`
Python raises when the dispatch calls `self.<m>` but the class defines no
such method: `create_workflow` references `_code_review_workflow` (line 184)
and `_full_pipeline_workflow` (line 186), and neither is defined anywhere in
the class.  `unknownTaskType msg` models the final `else` branch raising
`ValueError(f"Unknown task type: {task_type}")` (line 189). -/
inductive DispatchOutcome where
  | workflow (w : WorkflowKind)
  | missingMethod (methodName : String)
  | unknownTaskType (msg : String)
deriving DecidableEq, Repr

/-- The `if/elif` chain of `create_workflow`
(`config_multi_agents.py` lines 175-189), in source order. -/
def createWorkflowDispatch (taskType : String) : DispatchOutcome :=
  if taskType = "code_generation" then .workflow .codeGeneration
  else if taskType = "code_optimization" then .workflow .codeOptimization
  else if taskType = "deployment" then .workflow .deployment
  else if taskType = "architecture_design" then .workflow .architectureDesign
  else if taskType = "code_review" then .missingMethod "_code_review_workflow"
  else if taskType = "full_pipeline" then .missingMethod "_full_pipeline_workflow"
  else .unknownTaskType ("Unknown task type: " ++ taskType)

/-- Number of group-chat conversations started by a dispatch outcome.
Each defined workflow method calls `user_proxy.initiate_chat` exactly once
(`config_multi_agents.py` lines 270, 357, 463, 557); the `AttributeError`
and `ValueError` branches raise before any chat is initiated. -/
def chatsStarted : DispatchOutcome → Nat
  | .workflow _ => 1
  | .missingMethod _ => 0
  | .unknownTaskType _ => 0

/-- A chat-history message as consumed by the result-extraction code:
the `name` of the speaking agent and its text `content`. -/
structure Message where
  name : String
  content : String
deriving DecidableEq, Repr

/-- The fields of the `results` dict built by `_process_workflow_results`
(`config_multi_agents.py` lines 560-613) that `_calculate_confidence_score`
reads: `results["errors"]` (a list of `(agent, error_message)` records) and
`results["metadata"]["agent_contributions"]` (a dict from agent name to the
list of that agent's message contents). -/
structure WorkflowResults where
  errors : List (String × String)
  agentContributions : List (String × List String)
deriving DecidableEq, Repr

/-- `_calculate_confidence_score` (`config_multi_agents.py` lines 615-629):
base 0.7; subtract `0.1 * len(results["errors"])` floored at 0.0; add 0.2
when at least 3 agents contributed; cap at 1.0.  No complexity or reviewer
term appears in this function. -/
def calcConfidenceScore (results : WorkflowResults) : ℚ :=
  let baseScore : ℚ := 7/10
  let errorPenalty : ℚ := (1/10) * results.errors.length
  let baseScore : ℚ := max 0 (baseScore - errorPenalty)
  let baseScore : ℚ :=
    if results.agentContributions.length ≥ 3 then baseScore + 2/10 else baseScore
  min 1 baseScore

/-- Byte-wise string-containment check, modelling Python's `in` operator on
strings (restricted to the exact character sequence): `startsWithChars n h`
holds when `n` is an initial segment of `h`. -/
def startsWithChars : List Char → List Char → Bool
  | [], _ => true
  | _ :: _, [] => false
  | a :: as, b :: bs => a == b && startsWithChars as bs

/-- `containsChars needle haystack` models Python `needle in haystack`. -/
def containsChars (needle : List Char) : List Char → Bool
  | [] => needle.isEmpty
  | b :: bs => startsWithChars needle (b :: bs) || containsChars needle bs

/-- The reviewer-approval test of `_code_generation_workflow`
(`config_multi_agents.py` line 289):
`reviewer_messages and "approved" in reviewer_messages[-1].get("content", "").lower()`.
Lowercasing is modelled per character with `Char.toLower` (the source data
is ASCII). -/
def reviewerApproved (reviewerMessages : List Message) : Bool :=
  match reviewerMessages.getLast? with
  | some m => containsChars "approved".data (m.content.data.map Char.toLower)
  | none => false

/-- The inline confidence computation of `_code_generation_workflow`
(`config_multi_agents.py` lines 286-297): base 0.7; add 0.2 when
`complexity == "low"`; add 0.1 when the last reviewer message contains
"approved" (case-insensitive); cap at 1.0.  No error penalty or
agent-count term appears here. -/
def codeGenConfidence (complexity : String) (reviewerMessages : List Message) : ℚ :=
  let confidence : ℚ := 7/10
  let confidence : ℚ := if complexity = "low" then confidence + 2/10 else confidence
  let confidence : ℚ :=
    if reviewerApproved reviewerMessages then confidence + 1/10 else confidence
  min confidence 1

/-- Modelled from the spec's words (spec §4.4 / claim C2), for comparison
with the source's two confidence computations: base 0.7; minus 0.1 per
error floored at 0.0 before any bonus; plus 0.2 if complexity is low; plus
0.1 if a reviewer approved; plus 0.2 if at least 3 agents contributed;
clamped to [0,1] last. -/
def specClaimedConfidence (errorCount : Nat) (complexity : String)
    (reviewerHasApproved : Bool) (contributingAgents : Nat) : ℚ :=
  min 1 (max 0 ((7:ℚ)/10 - (1/10) * errorCount)
    + (if complexity = "low" then (2:ℚ)/10 else 0)
    + (if reviewerHasApproved then (1:ℚ)/10 else 0)
    + (if contributingAgents ≥ 3 then (2:ℚ)/10 else 0))

/-! ## Fenced code-block extraction (`src/utils.py` and
`AgentOrchestrator._extract_code_from_message`)

`parse_code_blocks` (`utils.py` lines 96-120) runs
`re.findall` with the pattern "three backticks, a captured run of word
characters, a newline, a lazily captured body, a newline and three closing
backticks", then builds one dict per match with the language lowercased
(defaulting to "text" for an untagged fence) and the body stripped.
`_extract_code_from_message` (`config_multi_agents.py` lines 191-202) runs
the same pattern capturing only the body, joins the bodies with a blank
line, and falls back to the whole message when there is no match.

The scanner below implements `re.findall` for exactly this pattern: it
tries each start position from the left; a match requires the three
backticks, then the maximal run of word characters followed by a newline
(backtracking inside the run can never expose a newline), then the body up
to the nearest following newline-plus-three-backticks; scanning resumes
after each match. -/

/-- The backtick character (U+0060). -/
def backtickChar : Char := Char.ofNat 96

/-- Python's word character class as matched by the regex patterns in this
repository (an ASCII approximation of re's `\w`). -/
def isWordCharPy (c : Char) : Bool := c.isAlphanum || c == '_'

/-- Split a character list into its maximal leading run of word characters
and the remainder. -/
def takeWordRun : List Char → List Char × List Char
  | [] => ([], [])
  | c :: cs =>
    if isWordCharPy c then
      let p := takeWordRun cs
      (c :: p.1, p.2)
    else ([], c :: cs)

/-- Does the character list start with three backticks? -/
def startsWithTriple : List Char → Bool
  | a :: b :: c :: _ => a == backtickChar && b == backtickChar && c == backtickChar
  | _ => false

/-- Does the character list contain three consecutive backticks anywhere? -/
def hasTripleBacktick : List Char → Bool
  | [] => false
  | c :: cs => startsWithTriple (c :: cs) || hasTripleBacktick cs

/-- Does the character list start with a newline followed by three
backticks (the closing delimiter of a fenced block)? -/
def startsWithFenceClose : List Char → Bool
  | a :: rest => a == '\n' && startsWithTriple rest
  | _ => false

/-- Find the earliest closing delimiter (newline plus three backticks);
return the body before it and the remainder after the closing backticks.
This is the lazy `[\s\S]*?` capture of the source patterns. -/
def findFenceClose : List Char → Option (List Char × List Char)
  | [] => none
  | c :: cs =>
    if startsWithFenceClose (c :: cs) then some ([], cs.drop 3)
    else (findFenceClose cs).map (fun p => (c :: p.1, p.2))

/-- Try to match a whole fenced block at the start of the list; on success
return the language tag, the body, and the remainder after the block. -/
def tryMatchFence (s : List Char) : Option (List Char × List Char × List Char) :=
  if startsWithTriple s then
    let p := takeWordRun (s.drop 3)
    match p.2 with
    | c :: body =>
      if c = '\n' then (findFenceClose body).map (fun q => (p.1, q.1, q.2))
      else none
    | [] => none
  else none

/-- Left-to-right scan for all fenced blocks, resuming after each match,
as `re.findall` does.  The fuel argument bounds the recursion; every call
site passes at least `length + 1`, which is never exhausted because each
step consumes at least one character. -/
def scanFenced : Nat → List Char → List (List Char × List Char)
  | 0, _ => []
  | _ + 1, [] => []
  | fuel + 1, c :: cs =>
    match tryMatchFence (c :: cs) with
    | some (lang, body, rest) => (lang, body) :: scanFenced fuel rest
    | none => scanFenced fuel cs

/-- Whitespace as stripped by Python's `str.strip()`. -/
def isPySpace (c : Char) : Bool :=
  c == ' ' || c == '\t' || c == '\n' || c == '\r' || c == '\x0b' || c == '\x0c'

/-- Python `str.strip()`: drop leading and trailing whitespace. -/
def stripChars (l : List Char) : List Char :=
  ((l.dropWhile isPySpace).reverse.dropWhile isPySpace).reverse

/-- One element of the list returned by `parse_code_blocks`. -/
structure CodeBlock where
  language : String
  code : String
deriving DecidableEq, Repr

/-- `parse_code_blocks` (`utils.py` lines 96-120): one `CodeBlock` per
regex match, with `language.lower() if language else 'text'` and the body
`strip()`ped.  When the text contains no fenced block the result is the
empty list (the `for` loop over `matches` appends nothing). -/
def parseCodeBlocks (text : String) : List CodeBlock :=
  (scanFenced (text.data.length + 1) text.data).map fun p =>
    { language := if p.1.isEmpty then "text" else String.mk (p.1.map Char.toLower),
      code := String.mk (stripChars p.2) }

/-- `AgentOrchestrator._extract_code_from_message`
(`config_multi_agents.py` lines 191-202): join the matched bodies with a
blank line; if there is no match, return the original message. -/
def extractCodeFromMessage (message : String) : String :=
  let codeBlocks := (scanFenced (message.data.length + 1) message.data).map
    (fun p => String.mk p.2)
  if codeBlocks.isEmpty then message
  else String.intercalate "\n\n" codeBlocks

/-! ## The request cache (`src/integration/azure_foundry.py`, `RequestCache`)

The cache dict `self.cache` is modelled as an association list in
insertion order; `self.access_order` is a list of keys with the
least-recently-used key first.  `time.time()` is an explicit natural
number.  `_generate_key` hashes the endpoint joined with
`json.dumps(payload, sort_keys=True)`; the md5 step is modelled as an
arbitrary function parameter `h` on the key material (every property
proved holds for every choice of `h`).  Payload values are modelled as
scalar JSON values: nested containers would be serialized recursively by
`json.dumps` but no claim exercises them. -/

/-- A scalar JSON value appearing in a request payload. -/
inductive JValue where
  | str (s : String)
  | num (n : Int)
  | boolean (b : Bool)
  | null
deriving DecidableEq, Repr

/-- A request payload: a Python dict from field name to value, in
insertion order. -/
def Payload := List (String × JValue)

/-- Serialization of one scalar value, as `json.dumps` renders it (string
escaping is not modelled; the claims never exercise it). -/
def dumpJValue : JValue → String
  | .str s => "\"" ++ s ++ "\""
  | .num n => toString n
  | .boolean b => if b then "true" else "false"
  | .null => "null"

/-- Key ordering used by `json.dumps(..., sort_keys=True)`. -/
def keyLE (a b : String × JValue) : Prop := a.1 ≤ b.1

instance : DecidableRel keyLE := fun a b => inferInstanceAs (Decidable (a.1 ≤ b.1))

instance : IsTotal (String × JValue) keyLE := ⟨fun a b => le_total a.1 b.1⟩

instance : IsTrans (String × JValue) keyLE := ⟨fun _ _ _ hab hbc => le_trans hab hbc⟩

/-- Strict version of `keyLE`; two fields of a well-formed payload always
compare strictly since a dict cannot repeat a key. -/
def keyLT (a b : String × JValue) : Prop := a.1 < b.1

instance : IsAntisymm (String × JValue) keyLT :=
  ⟨fun _ _ h1 h2 => absurd h1 (lt_asymm h2)⟩

/-- The fields of a payload in sorted key order. -/
def sortFields (p : Payload) : List (String × JValue) := List.insertionSort keyLE p

/-- `json.dumps(payload, sort_keys=True)`: serialize the fields in sorted
key order with the default separators. -/
def dumpsSorted (p : Payload) : String :=
  "\x7b" ++ String.intercalate ", "
    ((sortFields p).map fun f => "\"" ++ f.1 ++ "\": " ++ dumpJValue f.2) ++ "\x7d"

/-- `RequestCache._generate_key` (`azure_foundry.py` lines 58-62): hash of
`f"{endpoint}:{json.dumps(payload, sort_keys=True)}"`; `h` stands for the
md5-hexdigest step. -/
def generateKey (h : String → String) (endpoint : String) (p : Payload) : String :=
  h (endpoint ++ ":" ++ dumpsSorted p)

/-- The statistics counters of the cache (`azure_foundry.py` lines 44-50). -/
structure CacheStats where
  hits : Nat
  misses : Nat
  evictions : Nat
  expirations : Nat
  insertions : Nat
deriving DecidableEq, Repr

/-- One cache entry (`azure_foundry.py` lines 108-111): the stored
response and its absolute expiry time. -/
structure CacheEntry (V : Type) where
  response : V
  expiresAt : Nat
deriving DecidableEq, Repr

/-- The state of a `RequestCache` (`azure_foundry.py` lines 28-56). -/
structure RequestCache (V : Type) where
  cache : List (String × CacheEntry V)
  maxSize : Nat
  ttl : Nat
  accessOrder : List String
  stats : CacheStats
deriving DecidableEq, Repr

/-- `key in self.cache` (dict membership). -/
def hasKey {V : Type} (l : List (String × CacheEntry V)) (k : String) : Bool :=
  (List.lookup k l).isSome

/-- `self.cache[key] = entry` (dict assignment): replace the entry in
place when the key is present — a dict holds each key once, so replacing
the first occurrence is replacement of the entry — otherwise append. -/
def insertEntry {V : Type} : List (String × CacheEntry V) → String →
    CacheEntry V → List (String × CacheEntry V)
  | [], k, v => [(k, v)]
  | p :: t, k, v => if p.1 = k then (k, v) :: t else p :: insertEntry t k v

/-- `del self.cache[key]` (dict deletion; a dict holds each key once, so
filtering is removal of that single entry). -/
def eraseEntry {V : Type} (l : List (String × CacheEntry V)) (k : String) :
    List (String × CacheEntry V) :=
  l.filter (fun p => decide (p.1 ≠ k))

/-- A fresh cache as built by `RequestCache.__init__` without a persist
path (`azure_foundry.py` lines 28-56). -/
def RequestCache.init (V : Type) (maxSize ttl : Nat) : RequestCache V :=
  { cache := [], maxSize := maxSize, ttl := ttl, accessOrder := [],
    stats := { hits := 0, misses := 0, evictions := 0, expirations := 0,
               insertions := 0 } }

/-- The body of `RequestCache.set` after the key has been computed
(`azure_foundry.py` lines 95-124).  `none` models the `IndexError` raised
by `self.access_order.pop(0)` when an eviction is demanded while the
recency list is empty (only possible from an ill-formed state).  The
final access-order update models `if key in self.access_order:
self.access_order.remove(key)` followed by `append` (`List.erase` is the
identity when the key is absent, matching the guard). -/
def RequestCache.setWithKey {V : Type} (c : RequestCache V) (key : String)
    (response : V) (now : Nat) : Option (RequestCache V) :=
  let expiresAt := now + c.ttl
  let newEntry : CacheEntry V := { response := response, expiresAt := expiresAt }
  if c.maxSize ≤ c.cache.length ∧ hasKey c.cache key = false then
    match c.accessOrder with
    | [] => none
    | lruKey :: restOrder =>
      some { c with
        cache := insertEntry (eraseEntry c.cache lruKey) key newEntry,
        accessOrder := restOrder.erase key ++ [key],
        stats := { c.stats with
                   evictions := c.stats.evictions + 1
                   insertions := c.stats.insertions + 1 } }
  else
    some { c with
      cache := insertEntry c.cache key newEntry,
      accessOrder := c.accessOrder.erase key ++ [key],
      stats := { c.stats with insertions := c.stats.insertions + 1 } }

/-- The body of `RequestCache.get` after the key has been computed
(`azure_foundry.py` lines 64-93).  The outer `Option` models the
`ValueError` raised by `self.access_order.remove(key)` when the key is
missing from the recency list (only possible from an ill-formed state);
the inner `Option V` is the Python return value (`None` on a miss). -/
def RequestCache.getWithKey {V : Type} (c : RequestCache V) (key : String)
    (now : Nat) : Option (Option V × RequestCache V) :=
  match List.lookup key c.cache with
  | none =>
    some (none, { c with stats := { c.stats with misses := c.stats.misses + 1 } })
  | some entry =>
    if entry.expiresAt < now then
      if key ∈ c.accessOrder then
        some (none, { c with
          cache := eraseEntry c.cache key,
          accessOrder := c.accessOrder.erase key,
          stats := { c.stats with
                     expirations := c.stats.expirations + 1
                     misses := c.stats.misses + 1 } })
      else none
    else
      if key ∈ c.accessOrder then
        some (some entry.response, { c with
          accessOrder := c.accessOrder.erase key ++ [key],
          stats := { c.stats with hits := c.stats.hits + 1 } })
      else none

/-- `RequestCache.set` (`azure_foundry.py` lines 95-124). -/
def RequestCache.set {V : Type} (h : String → String) (c : RequestCache V)
    (endpoint : String) (payload : Payload) (response : V) (now : Nat) :
    Option (RequestCache V) :=
  c.setWithKey (generateKey h endpoint payload) response now

/-- `RequestCache.get` (`azure_foundry.py` lines 64-93). -/
def RequestCache.get {V : Type} (h : String → String) (c : RequestCache V)
    (endpoint : String) (payload : Payload) (now : Nat) :
    Option (Option V × RequestCache V) :=
  c.getWithKey (generateKey h endpoint payload) now

/-- The data recovered from a readable persisted cache file
(`azure_foundry.py` lines 149-154 and 176-179). -/
structure LoadedData (V : Type) where
  cache : List (String × CacheEntry V)
  accessOrder : List String
  stats : CacheStats
deriving DecidableEq, Repr

/-- The content of the persistence file: either unreadable/corrupt (any
failure of `open`/`pickle.load`/the dict accesses) or a valid snapshot. -/
inductive PersistedFile (V : Type) where
  | corrupt
  | valid (d : LoadedData V)
deriving DecidableEq, Repr

/-- The expired-entry cleanup loop of `_load_from_disk`
(`azure_foundry.py` lines 181-193): remove each expired key from the
cache and the recency list, incrementing the expiration counter.
The `Option`-typed first component records whether
`self.access_order.remove(key)` succeeded at every step; `none` plus the
statistics accumulated so far models the `ValueError` thrown mid-loop
from an internally inconsistent snapshot, which the enclosing `except`
then handles.  The second component is the statistics at the point the
loop ended (Python mutates `self.stats` in place, so increments made
before a failure survive it). -/
def removeExpired {V : Type} :
    List String → List (String × CacheEntry V) → List String → CacheStats →
    Option (List (String × CacheEntry V) × List String) × CacheStats
  | [], cache, order, stats => (some (cache, order), stats)
  | k :: ks, cache, order, stats =>
    if k ∈ order then
      removeExpired ks (eraseEntry cache k) (order.erase k)
        { stats with expirations := stats.expirations + 1 }
    else (none, stats)

/-- `RequestCache._load_from_disk` (`azure_foundry.py` lines 166-203).
Returns the cache state after the load attempt together with the boolean
the method returns.  The whole body runs inside `try/except Exception`,
so the method never raises: modelled by this function being total.  On
any failure after the snapshot was read, the `except` clause resets
`self.cache` and `self.access_order` to empty (statistics keep whatever
value they had at the failure point); when the file is absent the method
returns `False` without touching the state. -/
def RequestCache.loadFromDisk {V : Type} (c : RequestCache V)
    (file : Option (PersistedFile V)) (now : Nat) : RequestCache V × Bool :=
  match file with
  | none => (c, false)
  | some .corrupt => ({ c with cache := [], accessOrder := [] }, false)
  | some (.valid d) =>
    let expiredKeys := (d.cache.filter (fun p => p.2.expiresAt < now)).map Prod.fst
    match removeExpired expiredKeys d.cache d.accessOrder d.stats with
    | (some cleaned, stats) =>
      ({ c with cache := cleaned.1, accessOrder := cleaned.2, stats := stats }, true)
    | (none, stats) =>
      ({ c with cache := [], accessOrder := [], stats := stats }, false)

/-! ## The hybrid workflow (`src/main.py`, `hybrid_workflow`)

`hybrid_workflow` wraps its whole processing body in
`try/except Exception` (lines 49-171): on success it attaches a metadata
dict and returns the result; on any exception it returns a dict with keys
`error`, `task_type` and `metadata` (the latter with `success: False`).
The body is modelled with the outcome of each opaque step passed in as a
parameter: `oracle` gives the group-chat-dependent result of each defined
local workflow, and `cloud` the outcome of the Azure call used by the
cloud-first branch taken for high-complexity tasks.  The
`parallel_execution` branch (lines 94-142) is not modelled (it reduces to
the same local call composed with a cloud comparison); the claims settled
here do not depend on it. -/

/-- A Python exception relevant to `create_workflow`:
`ValueError` (unknown task type, line 189 of `config_multi_agents.py`) or
`AttributeError` (dispatch to an undefined workflow method). -/
inductive PyError where
  | valueError (msg : String)
  | attributeError (attr : String)
deriving DecidableEq, Repr

/-- `str(e)` for the two modelled exception kinds (the `AttributeError`
text follows CPython's standard message). -/
def pyErrorMessage : PyError → String
  | .valueError msg => msg
  | .attributeError attr =>
    "'AgentOrchestrator' object has no attribute '" ++ attr ++ "'"

/-- `orchestrator.create_workflow(task_type, task_data)` as called from
`main.py`: dispatch per `createWorkflowDispatch`; a defined workflow
returns whatever its group chat produced (the `oracle`), the two
undefined methods raise `AttributeError`, an unknown task type raises
`ValueError`. -/
def runLocalWorkflow {R : Type} (oracle : WorkflowKind → Except PyError R)
    (taskType : String) : Except PyError R :=
  match createWorkflowDispatch taskType with
  | .workflow w => oracle w
  | .missingMethod m => .error (.attributeError m)
  | .unknownTaskType msg => .error (.valueError msg)

/-- Outcome of an awaited Azure AI Foundry call (`main.py` lines 56-93):
the returned dict either lacks an `error` key (taken as success), contains
one (triggering the local fallback), or the call raised (caught by the
inner `except`, also triggering the local fallback). -/
inductive CloudOutcome (R : Type) where
  | success (r : R)
  | errorField (r : R)
  | raised (e : PyError)
deriving DecidableEq, Repr

/-- The `try` body of `hybrid_workflow` (`main.py` lines 49-157, without
the `parallel_execution` branch): for a high-complexity task with cloud
processing enabled and a cloud implementation available
(`code_generation` / `code_optimization`), use the cloud result unless it
failed, falling back to the local orchestrator; otherwise run the local
orchestrator directly. -/
def hybridTryBody {R : Type} (oracle : WorkflowKind → Except PyError R)
    (cloud : CloudOutcome R) (useCloud : Bool) (complexity taskType : String) :
    Except PyError R :=
  if useCloud ∧ complexity = "high" then
    if taskType = "code_generation" ∨ taskType = "code_optimization" then
      match cloud with
      | .success r => .ok r
      | .errorField _ => runLocalWorkflow oracle taskType
      | .raised _ => runLocalWorkflow oracle taskType
    else runLocalWorkflow oracle taskType
  else runLocalWorkflow oracle taskType

/-- The metadata dict attached to a successful result
(`main.py` lines 149-154); `version_info` is not modelled. -/
structure SuccessMetadata where
  executionTime : Nat
  gpuUsed : Bool
  cloudUsed : Bool
deriving DecidableEq, Repr

/-- The dict returned by the `except` clause of `hybrid_workflow`
(`main.py` lines 162-171): keys `error`, `task_type` and `metadata`, the
latter holding `execution_time`, `success: False`, `gpu_used` and
`cloud_used`. -/
structure ErrorDict where
  error : String
  taskType : String
  metaExecutionTime : Nat
  metaSuccess : Bool
  metaGpuUsed : Bool
  metaCloudUsed : Bool
deriving DecidableEq, Repr

/-- The value returned by `hybrid_workflow`: either the workflow result
with metadata attached, or the error dict from the `except` clause. -/
inductive HybridOutcome (R : Type) where
  | completedDict (r : R) (meta : SuccessMetadata)
  | exceptionDict (d : ErrorDict)
deriving DecidableEq, Repr

/-- `hybrid_workflow` (`main.py` lines 18-171): run the `try` body; on
success attach the metadata dict, on any exception return the error dict.
`elapsed` stands for `time.time() - start_time`. -/
def hybridWorkflow {R : Type} (oracle : WorkflowKind → Except PyError R)
    (cloud : CloudOutcome R) (useCloud : Bool) (complexity taskType : String)
    (useGpu : Bool) (elapsed : Nat) : HybridOutcome R :=
  match hybridTryBody oracle cloud useCloud complexity taskType with
  | .ok r =>
    .completedDict r { executionTime := elapsed, gpuUsed := useGpu,
                       cloudUsed := useCloud }
  | .error e =>
    .exceptionDict { error := pyErrorMessage e, taskType := taskType,
                     metaExecutionTime := elapsed, metaSuccess := false,
                     metaGpuUsed := useGpu, metaCloudUsed := useCloud }

/-! ## Theorems -/

/-- C1: the claim promises that every task type in {code_generation,
code_optimization, code_review, architecture_design, deployment} yields a
`WorkflowResult` with a status in {completed, failed, partial}; on the
code, dispatching `"code_review"` calls `self._code_review_workflow`,
which is defined nowhere in `AgentOrchestrator`, so `create_workflow`
raises `AttributeError` instead of returning any result; no conversation
is started on that path. -/
theorem C1_code_review_dispatch_missing :
    createWorkflowDispatch "code_review" =
      DispatchOutcome.missingMethod "_code_review_workflow" ∧
    chatsStarted (createWorkflowDispatch "code_review") = 0 := by
  decide

/-- C3 (amended): only `_code_generation_workflow` assembles its
participants from the complexity tier — low `{UserProxy, Processor}`,
medium additionally `{Architect, DataCollector}`, high additionally
`{Reviewer}`, monotonically, with every unrecognized complexity string
treated like low; the other workflows use fixed participant lists that
ignore complexity: optimization `{UserProxy, Processor, Reviewer}`,
architecture design `{UserProxy, Architect, DataCollector}`, deployment
`{UserProxy, StorageHandler, Reviewer, Processor}`. -/
theorem C3_participants_by_complexity (complexity : String)
    (hm : complexity ≠ "medium") (hh : complexity ≠ "high") :
    codeGenerationParticipants complexity = [Agent.userProxy, Agent.processor] ∧
    codeGenerationParticipants "low" = [Agent.userProxy, Agent.processor] ∧
    codeGenerationParticipants "medium" =
      [Agent.userProxy, Agent.processor, Agent.architect, Agent.dataCollector] ∧
    codeGenerationParticipants "high" =
      [Agent.userProxy, Agent.processor, Agent.architect, Agent.dataCollector,
       Agent.codeReviewer] ∧
    (∀ a ∈ codeGenerationParticipants "low", a ∈ codeGenerationParticipants "medium") ∧
    (∀ a ∈ codeGenerationParticipants "medium", a ∈ codeGenerationParticipants "high") ∧
    codeOptimizationParticipants = [Agent.userProxy, Agent.processor, Agent.codeReviewer] ∧
    architectureDesignParticipants = [Agent.userProxy, Agent.architect, Agent.dataCollector] ∧
    deploymentParticipants =
      [Agent.userProxy, Agent.storageHandler, Agent.codeReviewer, Agent.processor] := by
  refine ⟨?_, by decide, by decide, by decide, by decide, by decide, by decide,
    by decide, by decide⟩
  simp [codeGenerationParticipants, hm, hh]

/-- Witness for C3: a complexity string other than "medium"/"high" is
treated like low, yielding exactly the UserProxy and the Processor. -/
theorem C3_participants_by_complexity_witness :
    codeGenerationParticipants "banana" = [Agent.userProxy, Agent.processor] :=
  (C3_participants_by_complexity "banana" (by decide) (by decide)).1

/-- Counterexample for C3 as stated: the claim requires that for every
supported workflow the low-complexity participant set is exactly
{UserProxy, Processor}, but the code-optimization workflow's participant
list (which is the one used at complexity low, since it never reads the
complexity) contains the Reviewer. -/
theorem C3_counterexample :
    Agent.codeReviewer ∈ codeOptimizationParticipants ∧
    Agent.codeReviewer ∉ [Agent.userProxy, Agent.processor] := by
  decide

/-- C8 (amended): any task type outside the six strings in the
`create_workflow` dispatch chain — the claimed five plus `full_pipeline` —
raises `ValueError("Unknown task type: ...")` directly to the caller,
before any conversation is started. -/
theorem C8_unknown_task_type_rejected (taskType : String)
    (h : taskType ∉ ["code_generation", "code_optimization", "deployment",
      "architecture_design", "code_review", "full_pipeline"]) :
    createWorkflowDispatch taskType =
      DispatchOutcome.unknownTaskType ("Unknown task type: " ++ taskType) ∧
    chatsStarted (createWorkflowDispatch taskType) = 0 := by
  simp only [List.mem_cons, List.not_mem_nil, or_false, not_or] at h
  obtain ⟨h1, h2, h3, h4, h5, h6⟩ := h
  refine ⟨?_, ?_⟩ <;>
    simp [createWorkflowDispatch, chatsStarted, h1, h2, h3, h4, h5, h6]

/-- Witness for C8: `"language_understanding"` (a task type mentioned in
`main.py`'s docstring but absent from the dispatch chain) is rejected with
the `ValueError` and starts no conversation. -/
theorem C8_unknown_task_type_witness :
    createWorkflowDispatch "language_understanding" =
      DispatchOutcome.unknownTaskType "Unknown task type: language_understanding" ∧
    chatsStarted (createWorkflowDispatch "language_understanding") = 0 :=
  C8_unknown_task_type_rejected "language_understanding" (by decide)

/-- Counterexample for C8 as stated: `"full_pipeline"` is outside the
claimed supported set, yet `create_workflow` does not raise the
unknown-task-type `ValueError` for it — the dispatch chain matches it and
calls the undefined `_full_pipeline_workflow`, raising `AttributeError`. -/
theorem C8_counterexample :
    createWorkflowDispatch "full_pipeline" =
      DispatchOutcome.missingMethod "_full_pipeline_workflow" ∧
    "full_pipeline" ∉ ["code_generation", "code_optimization", "code_review",
      "architecture_design", "deployment"] := by
  decide

/-- C9: both confidence computations in the source — the general scorer
`_calculate_confidence_score` and the inline score of the code-generation
workflow — always produce a value in [0, 1], for every error list, every
contribution map, every complexity string and every reviewer history. -/
theorem C9_confidence_in_unit_interval (r : WorkflowResults)
    (complexity : String) (msgs : List Message) :
    0 ≤ calcConfidenceScore r ∧ calcConfidenceScore r ≤ 1 ∧
    0 ≤ codeGenConfidence complexity msgs ∧ codeGenConfidence complexity msgs ≤ 1 := by
  unfold calcConfidenceScore codeGenConfidence
  refine ⟨?_, ?_, ?_, ?_⟩ <;> split_ifs <;>
    first
      | exact min_le_left _ _
      | exact min_le_right _ _
      | · apply le_min
          all_goals positivity

/-- C2 (amended): the two confidence computations are distinct and neither
implements the claim's combined formula.  `_calculate_confidence_score`
is `min(1, max(0, 0.7 - 0.1·#errors) + (0.2 if ≥ 3 agents contributed))`,
with no complexity or reviewer term; the code-generation workflow's
inline score is `min(1, 0.7 + (0.2 if complexity = low) + (0.1 if the
last reviewer message contains "approved" case-insensitively))`, with no
error penalty and no agent-count bonus, hence never below 0.7. -/
theorem C2_confidence_two_formulas (r : WorkflowResults)
    (complexity : String) (msgs : List Message) :
    calcConfidenceScore r =
      min 1 (max 0 ((7:ℚ)/10 - (1/10) * r.errors.length)
        + (if r.agentContributions.length ≥ 3 then (2:ℚ)/10 else 0)) ∧
    codeGenConfidence complexity msgs =
      min 1 ((7:ℚ)/10 + (if complexity = "low" then (2:ℚ)/10 else 0)
        + (if reviewerApproved msgs then (1:ℚ)/10 else 0)) ∧
    (7:ℚ)/10 ≤ codeGenConfidence complexity msgs := by
  unfold calcConfidenceScore codeGenConfidence
  refine ⟨?_, ?_, ?_⟩ <;> split_ifs <;>
    simp [min_comm] <;> norm_num

/-- Counterexample for C2 as stated: with no errors, low complexity, no
reviewer approval and a single contributing agent, the claimed combined
formula gives 0.9 but `_calculate_confidence_score` gives 0.7 (it has no
complexity bonus); conversely with one error and medium complexity the
claimed formula gives 0.6 but the code-generation inline score gives 0.7
(it has no error penalty). -/
theorem C2_counterexample :
    calcConfidenceScore
      { errors := [], agentContributions := [("Processor", ["done"])] } = 7/10 ∧
    specClaimedConfidence 0 "low" false 1 = 9/10 ∧
    calcConfidenceScore
      { errors := [], agentContributions := [("Processor", ["done"])] } ≠
      specClaimedConfidence 0 "low" false 1 ∧
    codeGenConfidence "medium" [] = 7/10 ∧
    specClaimedConfidence 1 "medium" false 1 = 6/10 ∧
    codeGenConfidence "medium" [] ≠ specClaimedConfidence 1 "medium" false 1 := by
  have hml : (("medium" : String) = "low") = False := eq_false (by decide)
  refine ⟨?_, ?_, ?_, ?_, ?_, ?_⟩ <;>
    norm_num [calcConfidenceScore, specClaimedConfidence, codeGenConfidence,
      reviewerApproved, hml, min_def, max_def]

/-- A character list that does not start with three backticks cannot be
the start of a fenced-block match. -/
theorem tryMatchFence_eq_none {s : List Char} (h : startsWithTriple s = false) :
    tryMatchFence s = none := by
  simp [tryMatchFence, h]

/-- A character list with no three consecutive backticks contains no
fenced-block match, for any amount of fuel. -/
theorem scanFenced_eq_nil_of_no_triple (fuel : Nat) (s : List Char)
    (h : hasTripleBacktick s = false) : scanFenced fuel s = [] := by
  induction fuel generalizing s with
  | zero => rfl
  | succ n ih =>
    cases s with
    | nil => rfl
    | cons c cs =>
      simp only [hasTripleBacktick, Bool.or_eq_false_iff] at h
      simp only [scanFenced, tryMatchFence_eq_none h.1, ih cs h.2]

/-- C4 (amended): on input containing no three-backtick sequence,
`parse_code_blocks` returns the empty list of blocks, while
`_extract_code_from_message` is the function that returns the full
original text unmodified. -/
theorem C4_no_fence_behaviour (text : String)
    (h : hasTripleBacktick text.data = false) :
    parseCodeBlocks text = [] ∧ extractCodeFromMessage text = text := by
  constructor
  · simp [parseCodeBlocks, scanFenced_eq_nil_of_no_triple _ _ h]
  · simp [extractCodeFromMessage, scanFenced_eq_nil_of_no_triple _ _ h]

/-- Witness for C4: on `"hello world"` the parser returns no blocks and
the message extractor returns the text itself. -/
theorem C4_no_fence_behaviour_witness :
    hasTripleBacktick "hello world".data = false ∧
    (parseCodeBlocks "hello world" = [] ∧
     extractCodeFromMessage "hello world" = "hello world") :=
  ⟨by decide, C4_no_fence_behaviour "hello world" (by decide)⟩

/-- Counterexample for C4 as stated: on the fence-free input
`"hello world"` the claim requires `parse_code_blocks` to return exactly
one block with empty language and the full text as code, but the function
returns the empty list. -/
theorem C4_counterexample :
    parseCodeBlocks "hello world" ≠ [{ language := "", code := "hello world" }] := by
  decide

/-- After a dict assignment, looking the assigned key up yields the
assigned value. -/
theorem lookup_insertEntry_self {V : Type} (l : List (String × CacheEntry V))
    (k : String) (v : CacheEntry V) :
    List.lookup k (insertEntry l k v) = some v := by
  induction l with
  | nil => simp [insertEntry, List.lookup]
  | cons p t ih =>
    by_cases hp : p.1 = k
    · simp [insertEntry, hp, List.lookup]
    · have hb : (k == p.1) = false := beq_false_of_ne (Ne.symm hp)
      simp [insertEntry, hp, List.lookup, hb, ih]

/-- A dict assignment leaves the lookup of every other key unchanged. -/
theorem lookup_insertEntry_of_ne {V : Type} (l : List (String × CacheEntry V))
    {k k' : String} (hne : k' ≠ k) (v : CacheEntry V) :
    List.lookup k' (insertEntry l k v) = List.lookup k' l := by
  have hbk : (k' == k) = false := beq_false_of_ne hne
  induction l with
  | nil => simp [insertEntry, List.lookup, hbk]
  | cons p t ih =>
    by_cases hp : p.1 = k
    · have hb' : (k' == p.1) = false := beq_false_of_ne (hp ▸ hne)
      simp [insertEntry, hp, List.lookup, hbk, hb']
    · by_cases hp' : p.1 = k'
      · simp [insertEntry, hp, hne, List.lookup, hp', beq_self_eq_true]
      · have hb' : (k' == p.1) = false := beq_false_of_ne (Ne.symm hp')
        simp [insertEntry, hp, List.lookup, hb', ih]

/-- Deleting a key from the cache dict removes it. -/
theorem lookup_eraseEntry_self {V : Type} (l : List (String × CacheEntry V))
    (k : String) : List.lookup k (eraseEntry l k) = none := by
  induction l with
  | nil => rfl
  | cons p t ih =>
    by_cases hp : p.1 = k
    · simpa [eraseEntry, List.filter_cons, hp] using ih
    · have hb : (k == p.1) = false := beq_false_of_ne (Ne.symm hp)
      simp only [eraseEntry] at ih ⊢
      simp only [List.filter_cons]
      rw [if_pos (by simp [hp])]
      simp only [List.lookup, hb]
      exact ih

/-- After a deletion the deleted key is absent. -/
theorem hasKey_eraseEntry_self {V : Type} (l : List (String × CacheEntry V))
    (k : String) : hasKey (eraseEntry l k) k = false := by
  rw [hasKey, lookup_eraseEntry_self]
  rfl

/-- After a dict assignment the assigned key is present. -/
theorem hasKey_insertEntry_self {V : Type} (l : List (String × CacheEntry V))
    (k : String) (v : CacheEntry V) : hasKey (insertEntry l k v) k = true := by
  rw [hasKey, lookup_insertEntry_self]
  rfl

/-- A dict assignment leaves the presence of every other key unchanged. -/
theorem hasKey_insertEntry_of_ne {V : Type} (l : List (String × CacheEntry V))
    {k k' : String} (hne : k' ≠ k) (v : CacheEntry V) :
    hasKey (insertEntry l k v) k' = hasKey l k' := by
  rw [hasKey, lookup_insertEntry_of_ne l hne, hasKey]

/-- C5: `RequestCache.set` called at capacity with a new key first evicts
the least-recently-used key — the head of the recency order — counting
one eviction, then inserts the new key, counting one insertion. -/
theorem C5_set_at_capacity_evicts_lru {V : Type} (c : RequestCache V)
    (key lruKey : String) (restOrder : List String) (v : V) (now : Nat)
    (hfull : c.maxSize ≤ c.cache.length)
    (hnew : hasKey c.cache key = false)
    (horder : c.accessOrder = lruKey :: restOrder)
    (hlru : hasKey c.cache lruKey = true) :
    ∃ c', c.setWithKey key v now = some c' ∧
      hasKey c'.cache lruKey = false ∧
      hasKey c'.cache key = true ∧
      c'.stats.evictions = c.stats.evictions + 1 ∧
      c'.stats.insertions = c.stats.insertions + 1 := by
  have hkl : lruKey ≠ key := by
    intro he
    rw [he, hnew] at hlru
    cases hlru
  have hset : c.setWithKey key v now = some
      { c with
        cache := insertEntry (eraseEntry c.cache lruKey) key ⟨v, now + c.ttl⟩,
        accessOrder := restOrder.erase key ++ [key],
        stats := { c.stats with
                   evictions := c.stats.evictions + 1
                   insertions := c.stats.insertions + 1 } } := by
    simp only [RequestCache.setWithKey, horder]
    rw [if_pos ⟨hfull, hnew⟩]
  refine ⟨_, hset, ?_, ?_, rfl, rfl⟩
  · rw [hasKey_insertEntry_of_ne _ hkl, hasKey_eraseEntry_self]
  · exact hasKey_insertEntry_self _ _ _

/-- Witness for C5: starting from an empty cache with `maxSize = 2`, the
sequence Set(A), Set(B), Set(C) leaves exactly the entries for B and C,
with A evicted and the eviction counter at 1; the theorem applies to the
state reached after Set(A), Set(B). -/
theorem C5_set_at_capacity_evicts_lru_witness :
    (((((RequestCache.init Nat 2 60).setWithKey "A" 1 0).bind
        (fun c => c.setWithKey "B" 2 1)).bind
        (fun c => c.setWithKey "C" 3 2)).map
       (fun c => (c.cache.map Prod.fst, hasKey c.cache "A", c.stats.evictions)) =
      some (["B", "C"], false, 1)) ∧
    (∃ c', RequestCache.setWithKey
        { cache := [("A", ⟨1, 60⟩), ("B", ⟨2, 61⟩)],
          maxSize := 2, ttl := 60, accessOrder := ["A", "B"],
          stats := ⟨0, 0, 0, 0, 2⟩ } "C" 3 2 = some c' ∧
      hasKey c'.cache "A" = false ∧
      hasKey c'.cache "C" = true ∧
      c'.stats.evictions = 0 + 1 ∧
      c'.stats.insertions = 2 + 1) :=
  ⟨by decide,
   C5_set_at_capacity_evicts_lru _ "C" "A" ["B"] 3 2 (by decide) (by decide) rfl
     (by decide)⟩

/-- Sorting the payload fields permutes them. -/
theorem sortFields_perm (p : Payload) : List.Perm (sortFields p) p :=
  List.perm_insertionSort keyLE p

/-- The sorted payload fields are sorted under the key ordering. -/
theorem sortFields_sorted_le (p : Payload) : (sortFields p).Sorted keyLE :=
  List.sorted_insertionSort keyLE p

/-- On payloads with duplicate-free keys, the key-sorted field order — and
hence the canonical serialization — is invariant under reordering of the
fields. -/
theorem sortFields_eq_of_perm {p p' : Payload} (hperm : List.Perm p' p)
    (hnodup : (p.map Prod.fst).Nodup) : sortFields p' = sortFields p := by
  have hp : List.Perm (sortFields p') (sortFields p) :=
    ((sortFields_perm p').trans hperm).trans (sortFields_perm p).symm
  have hnd : ((sortFields p).map Prod.fst).Nodup :=
    (List.Perm.nodup_iff ((sortFields_perm p).map Prod.fst)).mpr hnodup
  have hnd' : ((sortFields p').map Prod.fst).Nodup :=
    (List.Perm.nodup_iff (hp.map Prod.fst)).mpr hnd
  have hstrict : ∀ q : Payload, (q.map Prod.fst).Nodup → q.Sorted keyLE →
      q.Sorted keyLT := by
    intro q hq hsq
    have hne : q.Pairwise (fun a b => a.1 ≠ b.1) := List.pairwise_map.mp hq
    exact (hsq.and hne).imp (fun hab => lt_of_le_of_ne hab.1 hab.2)
  exact List.eq_of_perm_of_sorted hp
    (hstrict _ hnd' (sortFields_sorted_le p'))
    (hstrict _ hnd (sortFields_sorted_le p))

/-- Payloads equal as maps (same fields in any order, keys duplicate-free)
produce the same cache key, whatever the hash function. -/
theorem generateKey_eq_of_perm (h : String → String) (e : String)
    {p p' : Payload} (hperm : List.Perm p' p) (hnodup : (p.map Prod.fst).Nodup) :
    generateKey h e p' = generateKey h e p := by
  unfold generateKey dumpsSorted
  rw [sortFields_eq_of_perm hperm hnodup]

/-- A successful `set` leaves the freshly written entry in the cache dict,
its key in the recency order, and the configuration unchanged. -/
theorem setWithKey_spec {V : Type} (c : RequestCache V) (key : String)
    (v : V) (now : Nat) (c1 : RequestCache V)
    (hset : c.setWithKey key v now = some c1) :
    List.lookup key c1.cache = some ⟨v, now + c.ttl⟩ ∧
    key ∈ c1.accessOrder ∧ c1.ttl = c.ttl := by
  unfold RequestCache.setWithKey at hset
  by_cases hcond : c.maxSize ≤ c.cache.length ∧ hasKey c.cache key = false
  · rw [if_pos hcond] at hset
    cases horder : c.accessOrder with
    | nil =>
      rw [horder] at hset
      cases hset
    | cons lru rest =>
      rw [horder] at hset
      injection hset with hc1
      subst hc1
      exact ⟨lookup_insertEntry_self _ _ _, by simp, rfl⟩
  · rw [if_neg hcond] at hset
    injection hset with hc1
    subst hc1
    exact ⟨lookup_insertEntry_self _ _ _, by simp, rfl⟩

/-- C6: `Set(e, p, r)` followed by `Get(e, p')` at or before the expiry
time returns exactly `r`, for any payload `p'` equal to `p` as a map
(same fields, any order, duplicate-free keys) — the cache key is a hash
of the endpoint and the key-sorted serialization of the payload, so both
calls address the same entry, for every hash function `h`. -/
theorem C6_cache_roundtrip {V : Type} (h : String → String)
    (c c1 : RequestCache V) (e : String) (p p' : Payload) (r : V)
    (now t : Nat) (hperm : List.Perm p' p) (hnodup : (p.map Prod.fst).Nodup)
    (hset : RequestCache.set h c e p r now = some c1)
    (ht : t ≤ now + c.ttl) :
    (RequestCache.get h c1 e p' t).map Prod.fst = some (some r) := by
  rw [RequestCache.set] at hset
  obtain ⟨hlook, hmem, _⟩ := setWithKey_spec c _ r now c1 hset
  rw [RequestCache.get, generateKey_eq_of_perm h e hperm hnodup]
  unfold RequestCache.getWithKey
  rw [hlook]
  dsimp only
  rw [if_neg (by exact Nat.not_lt.mpr ht), if_pos hmem]
  rfl

/-- Witness for C6: a concrete set/get round trip on a fresh cache
returns the stored response before expiry. -/
theorem C6_cache_roundtrip_witness :
    (RequestCache.get id
      { cache := [("endpoint:\x7b\"a\": \"x\"\x7d", ⟨42, 3605⟩)],
        maxSize := 10, ttl := 3600,
        accessOrder := ["endpoint:\x7b\"a\": \"x\"\x7d"],
        stats := ⟨0, 0, 0, 0, 1⟩ }
      "endpoint" [("a", JValue.str "x")] 100).map Prod.fst =
    some (some 42) :=
  C6_cache_roundtrip id (RequestCache.init Nat 10 3600) _ "endpoint"
    [("a", JValue.str "x")] [("a", JValue.str "x")] 42 5 100
    (List.Perm.refl _) (by decide) (by decide) (by decide)

/-- When every key to be removed is present in the recency order and the
keys are duplicate-free, the cleanup loop of `_load_from_disk` completes,
erasing each key and counting one expiration per key. -/
theorem removeExpired_spec {V : Type} (keys : List String)
    (cache : List (String × CacheEntry V)) (order : List String)
    (stats : CacheStats) (hmem : ∀ k ∈ keys, k ∈ order) (hnd : keys.Nodup) :
    removeExpired keys cache order stats =
      (some (keys.foldl eraseEntry cache, keys.foldl List.erase order),
       { stats with expirations := stats.expirations + keys.length }) := by
  induction keys generalizing cache order stats with
  | nil => simp [removeExpired]
  | cons k ks ih =>
    have hk : k ∈ order := hmem k (List.mem_cons_self _ _)
    rw [removeExpired, if_pos hk]
    have hmem' : ∀ k' ∈ ks, k' ∈ order.erase k := by
      intro k' hk'
      have hne : k' ≠ k := by
        intro he
        subst he
        exact (List.nodup_cons.mp hnd).1 hk'
      exact (List.mem_erase_of_ne hne).mpr (hmem k' (List.mem_cons_of_mem _ hk'))
    rw [ih _ _ _ hmem' (List.nodup_cons.mp hnd).2]
    simp only [List.foldl_cons, List.length_cons]
    congr 2
    omega

/-- Sequentially deleting a list of keys from the cache dict filters out
exactly the entries whose key is in that list. -/
theorem foldl_eraseEntry_eq_filter {V : Type} (keys : List String) :
    ∀ l : List (String × CacheEntry V),
      keys.foldl eraseEntry l = l.filter (fun p => decide (p.1 ∉ keys)) := by
  induction keys with
  | nil => intro l; simp
  | cons k ks ih =>
    intro l
    rw [List.foldl_cons, ih, eraseEntry, List.filter_filter]
    apply List.filter_congr
    intro a _
    by_cases h1 : a.1 = k <;> by_cases h2 : a.1 ∈ ks <;> simp [h1, h2]

/-- On a snapshot with duplicate-free keys, an entry's key is among the
expired keys exactly when the entry itself is expired. -/
theorem mem_expiredKeys_iff {V : Type} (l : List (String × CacheEntry V))
    (E : String × CacheEntry V → Bool) (hnd : (l.map Prod.fst).Nodup)
    {a : String × CacheEntry V} (ha : a ∈ l) :
    a.1 ∈ (l.filter E).map Prod.fst ↔ E a = true := by
  constructor
  · intro hmem
    rcases List.mem_map.mp hmem with ⟨q, hq, hq1⟩
    rcases List.mem_filter.mp hq with ⟨hql, hqE⟩
    have : q = a := List.inj_on_of_nodup_map hnd hql ha hq1
    rwa [this] at hqE
  · intro hE
    exact List.mem_map.mpr ⟨a, List.mem_filter.mpr ⟨ha, hE⟩, rfl⟩

/-- C7: `_load_from_disk` never raises to the caller.  A corrupt or
unreadable snapshot leaves the cache empty (no entries, empty recency
order).  A well-formed snapshot (duplicate-free keys, every key listed in
the recency order) is restored with every entry already expired at load
time discarded, each discarded entry incrementing the expiration counter,
and the method reports success. -/
theorem C7_load_from_disk_recovery {V : Type} (c : RequestCache V)
    (now : Nat) (d : LoadedData V)
    (hnd : (d.cache.map Prod.fst).Nodup)
    (hsub : ∀ k ∈ d.cache.map Prod.fst, k ∈ d.accessOrder) :
    ((c.loadFromDisk (some .corrupt) now).1.cache = [] ∧
     (c.loadFromDisk (some .corrupt) now).1.accessOrder = []) ∧
    ((c.loadFromDisk (some (.valid d)) now).1.cache =
       d.cache.filter (fun p => !(decide (p.2.expiresAt < now))) ∧
     (c.loadFromDisk (some (.valid d)) now).1.stats.expirations =
       d.stats.expirations +
         (d.cache.filter (fun p => decide (p.2.expiresAt < now))).length ∧
     (c.loadFromDisk (some (.valid d)) now).2 = true) := by
  refine ⟨⟨rfl, rfl⟩, ?_⟩
  have hkeysub :
      ∀ k ∈ (d.cache.filter (fun p => decide (p.2.expiresAt < now))).map Prod.fst,
        k ∈ d.accessOrder := by
    intro k hk
    rcases List.mem_map.mp hk with ⟨q, hq, hq1⟩
    exact hq1 ▸ hsub q.1 (List.mem_map.mpr ⟨q, (List.mem_filter.mp hq).1, rfl⟩)
  have hkeynd :
      ((d.cache.filter (fun p => decide (p.2.expiresAt < now))).map Prod.fst).Nodup :=
    hnd.sublist ((List.filter_sublist _).map Prod.fst)
  simp only [RequestCache.loadFromDisk]
  rw [removeExpired_spec _ _ _ _ hkeysub hkeynd]
  refine ⟨?_, ?_, rfl⟩
  · show List.foldl eraseEntry d.cache _ = _
    rw [foldl_eraseEntry_eq_filter]
    apply List.filter_congr
    intro a ha
    by_cases hE : (decide (a.2.expiresAt < now) : Bool) = true
    · simp [mem_expiredKeys_iff d.cache _ hnd ha, hE]
    · simp [mem_expiredKeys_iff d.cache _ hnd ha, hE]
  · show d.stats.expirations + _ = _
    rw [List.length_map]

/-- Witness for C7: a snapshot holding one expired and one live entry
loads to just the live entry with the expiration counter incremented
once, and a corrupt snapshot loads to an empty cache. -/
theorem C7_load_from_disk_recovery_witness :
    (((RequestCache.init Nat 5 60).loadFromDisk (some .corrupt) 50).1.cache = [] ∧
     ((RequestCache.init Nat 5 60).loadFromDisk (some .corrupt) 50).1.accessOrder = []) ∧
    (((RequestCache.init Nat 5 60).loadFromDisk
        (some (.valid { cache := [("k1", ⟨10, 5⟩), ("k2", ⟨20, 100⟩)],
                        accessOrder := ["k1", "k2"],
                        stats := ⟨0, 0, 0, 0, 2⟩ })) 50).1.cache =
       [("k1", (⟨10, 5⟩ : CacheEntry Nat)),
        ("k2", ⟨20, 100⟩)].filter (fun p => !(decide (p.2.expiresAt < 50))) ∧
     ((RequestCache.init Nat 5 60).loadFromDisk
        (some (.valid { cache := [("k1", ⟨10, 5⟩), ("k2", ⟨20, 100⟩)],
                        accessOrder := ["k1", "k2"],
                        stats := ⟨0, 0, 0, 0, 2⟩ })) 50).1.stats.expirations =
       0 + ([("k1", (⟨10, 5⟩ : CacheEntry Nat)),
             ("k2", ⟨20, 100⟩)].filter (fun p => decide (p.2.expiresAt < 50))).length ∧
     ((RequestCache.init Nat 5 60).loadFromDisk
        (some (.valid { cache := [("k1", ⟨10, 5⟩), ("k2", ⟨20, 100⟩)],
                        accessOrder := ["k1", "k2"],
                        stats := ⟨0, 0, 0, 0, 2⟩ })) 50).2 = true) :=
  C7_load_from_disk_recovery (RequestCache.init Nat 5 60) 50
    { cache := [("k1", ⟨10, 5⟩), ("k2", ⟨20, 100⟩)],
      accessOrder := ["k1", "k2"], stats := ⟨0, 0, 0, 0, 2⟩ }
    (by decide) (by decide)

/-- C10: every exception escaping the `try` body of `hybrid_workflow` —
including the `ValueError` for an unknown task type and the
`AttributeError` from the undefined workflow methods — is caught and
converted into the returned dict with keys `error`, `task_type` and
`metadata` (carrying `success: False`), never propagated to the caller. -/
theorem C10_hybrid_exception_to_dict {R : Type}
    (oracle : WorkflowKind → Except PyError R) (cloud : CloudOutcome R)
    (useCloud : Bool) (complexity taskType : String) (useGpu : Bool)
    (elapsed : Nat) (e : PyError)
    (h : hybridTryBody oracle cloud useCloud complexity taskType = .error e) :
    hybridWorkflow oracle cloud useCloud complexity taskType useGpu elapsed =
      HybridOutcome.exceptionDict
        { error := pyErrorMessage e, taskType := taskType,
          metaExecutionTime := elapsed, metaSuccess := false,
          metaGpuUsed := useGpu, metaCloudUsed := useCloud } := by
  unfold hybridWorkflow
  rw [h]

/-- Witness for C10: requesting the unknown task type
`"language_understanding"` (cloud-first path, high complexity, cloud
raising) returns the error dict with `success: False` instead of raising. -/
theorem C10_hybrid_exception_to_dict_witness :
    hybridWorkflow (R := Nat) (fun _ => .ok 0)
      (CloudOutcome.raised (.valueError "connection reset")) true "high"
      "language_understanding" false 2 =
    HybridOutcome.exceptionDict
      { error := "Unknown task type: language_understanding",
        taskType := "language_understanding", metaExecutionTime := 2,
        metaSuccess := false, metaGpuUsed := false, metaCloudUsed := true } :=
  C10_hybrid_exception_to_dict (fun _ => .ok 0)
    (CloudOutcome.raised (.valueError "connection reset")) true "high"
    "language_understanding" false 2
    (.valueError "Unknown task type: language_understanding") rfl
